import Mathlib

/-!
# Watchdog debugger extension (`src/watchdog/watchdog.cpp`)

A shallow embedding of the four extension commands `wdcfg`, `wdlive`, `wdcurr`
and `wdlivebpinstall`, of `Extension::Uninitialize` and of `FormatNtStatus`.

Conventions of the embedding:

* `ULONG64` values are natural numbers; address arithmetic is reduced modulo
  `2 ^ 64` where the source computes in `ULONG64`.
* Target memory (what `ExtRemoteData` reads and writes) is a total map from a
  64-bit address to a byte.  `ExtRemoteData` belongs to the debugger SDK and is
  not code of this repository; a failing remote access (an exception thrown by
  the SDK) is outside the model.  Within one command every read of a field comes
  before the first write, so a value read when the `ExtRemoteData` is constructed
  and one read at the `Get` call are the same.
* A local variable declared without an initialiser holds an arbitrary value,
  given as a parameter.
* Everything a command does that is visible outside of it (`Out`, the call of
  `FormatNtStatus`, `LocalFree`) is appended to a trace of `Event`s, in program
  order.
-/

namespace Watchdog

/-! ## Target memory and the `ExtRemoteData` accessors -/

/-- Target memory: the byte stored at each address. -/
abbrev Mem := Nat → Nat

/-- The value of `ExtRemoteData(name, offset, sizeof(UCHAR)).GetUchar()`. -/
def GetUchar (mem : Mem) (offset : Nat) : Nat :=
  mem offset % 256

/-- The value of `ExtRemoteData(name, offset, sizeof(BOOLEAN)).GetBoolean()` converted to
the C++ `bool` it is assigned to: true when the byte is not zero. -/
def GetBoolean (mem : Mem) (offset : Nat) : Bool :=
  GetUchar mem offset != 0

/-- The memory after `ExtRemoteData(name, offset, sizeof(BOOLEAN)).SetBoolean(b)`: the byte
at `offset` becomes 1 or 0, every other byte is kept. -/
def SetBoolean (mem : Mem) (offset : Nat) (b : Bool) : Mem :=
  fun a => if a = offset then (if b then 1 else 0) else mem a

/-- Little-endian read of `n` bytes starting at `offset` (the target is x64). -/
def readLE (mem : Mem) (offset : Nat) : Nat → Nat
  | 0 => 0
  | n + 1 => GetUchar mem (offset % 2 ^ 64) + 256 * readLE mem (offset + 1) n

/-- The value of `ExtRemoteData(name, offset, sizeof(ULONG)).GetUlong()`. -/
def GetUlong (mem : Mem) (offset : Nat) : Nat :=
  readLE mem offset 4

/-- The value of `ExtRemoteData(name, offset, sizeof(ULONG64)).GetUlong64()`. -/
def GetUlong64 (mem : Mem) (offset : Nat) : Nat :=
  readLE mem offset 8

/-! ## Output trace -/

/-- A `const char*` value held in `contextStrings`: either the address of the string
literal `""` of the initialiser, or any other pointer value. -/
inductive CPtr where
  | emptyLiteral
  | raw (p : Nat)
  deriving DecidableEq, Repr

/-- One variadic argument of an `Out` call. -/
inductive OutArg where
  /-- A `%s` argument that is a string constant of the program. -/
  | str (s : String)
  /-- A `%s` argument that is a `contextStrings` pointer, with the text found there. -/
  | cstr (p : CPtr) (text : String)
  /-- An integer argument. -/
  | u64 (v : Nat)
  /-- The argument `gCategoryNames[index]` with `index` outside of the table. -/
  | outsideTable (index : Nat)
  deriving DecidableEq, Repr

/-- What a command does that is visible outside of it. -/
inductive Event where
  /-- The call `Out(fmt, args...)`. -/
  | out (fmt : String) (args : List OutArg)
  /-- The call `FormatNtStatus(nsCode, &str)` made in iteration `slot` of the loop. -/
  | formatNtStatus (slot : Nat) (nsCode : Nat)
  /-- The call `LocalFree(p)`. -/
  | localFree (p : CPtr)
  deriving DecidableEq, Repr

/-! ## Category table -/

/-- The table `Extension::gCategoryNames`. -/
def gCategoryNames : List String :=
  ["Critical", "Assertion", "Error", "Warning", "Event", "Trace", "LowResource",
   "DmmEvent", "PresentTokenEvent", "Power", "Debug"]

/-- The argument `gCategoryNames[index]` of an `Out` call. The source indexes the C array
without a range check; a read outside of it is recorded as such. -/
def categoryNameArg (index : Nat) : OutArg :=
  match gCategoryNames[index]? with
  | some s => OutArg.str s
  | none => OutArg.outsideTable index

/-- The local `categoryOffset` of `wdcfg`: `addr + 0x18 * i` in `ULONG64`. -/
def categoryOffset (addr i : Nat) : Nat :=
  (addr + 0x18 * i) % 2 ^ 64

/-- The local `dbgOffset` of `wdcfg`: `categoryOffset + 0x10`. -/
def dbgOffset (addr i : Nat) : Nat :=
  (categoryOffset addr i + 0x10) % 2 ^ 64

/-- The local `logOffset` of `wdcfg`: `categoryOffset + 0x11`. -/
def logOffset (addr i : Nat) : Nat :=
  (categoryOffset addr i + 0x11) % 2 ^ 64

/-- The two reads of one iteration of `wdcfg` (`LogFlag.GetBoolean()`,
`DebugFlag.GetBoolean()`), as the pair (log, break). -/
def readCategoryFlags (mem : Mem) (addr i : Nat) : Bool × Bool :=
  (GetBoolean mem (logOffset addr i), GetBoolean mem (dbgOffset addr i))

/-- The two writes of one iteration of `wdcfg`, in source order:
`DebugFlag.SetBoolean(enableDbg)` and then `LogFlag.SetBoolean(enableLog)`. -/
def writeCategoryFlags (mem : Mem) (addr i : Nat) (enableLog enableDbg : Bool) : Mem :=
  SetBoolean (SetBoolean mem (dbgOffset addr i) enableDbg) (logOffset addr i) enableLog

/-- State threaded through the loop of `wdcfg`. -/
structure CfgState where
  mem : Mem
  trace : List Event

/-- The text `wdcfg` prints for a log flag. -/
def logText (b : Bool) : String := if b then "Log" else "   "

/-- The text `wdcfg` prints for a break flag. -/
def breakText (b : Bool) : String := if b then "Break" else "     "

/-- The `Out` call that ends one iteration of `wdcfg`. -/
def cfgLine (i : Nat) (enableLog enableDbg prevEnableLog prevEnableDbg : Bool) : Event :=
  Event.out "  % 18s: %s %s (was %s %s)\n"
    [categoryNameArg i,
     OutArg.str (logText enableLog), OutArg.str (breakText enableDbg),
     OutArg.str (logText prevEnableLog), OutArg.str (breakText prevEnableDbg)]

/-- One iteration of the loop of `wdcfg` (source lines 105 to 124). -/
def wdcfgCategory (logCategories dbgCategories addr : Nat) (st : CfgState) (i : Nat) :
    CfgState :=
  let enableLog := (logCategories &&& (1 <<< i)) != 0
  let enableDbg := (dbgCategories &&& (1 <<< i)) != 0
  let prev := readCategoryFlags st.mem addr i
  { mem := writeCategoryFlags st.mem addr i enableLog enableDbg
    trace := st.trace ++ [cfgLine i enableLog enableDbg prev.1 prev.2] }

/-- The debugger process's own memory, as far as the dump looks at it: the NUL-terminated
string found at each address (a read of an address that is not readable is outside the
model). -/
abbrev Heap := Nat → String

/-- Outcome of one call of the Win32 function `FormatMessageA` with
`FORMAT_MESSAGE_ALLOCATE_BUFFER`. -/
inductive FormatMessageResult where
  /-- Success: a buffer `buf` holding `text` was allocated and stored through `lpBuffer`;
  the return value is the length of `text`. -/
  | ok (buf : Nat) (text : String)
  /-- Failure: the return value is 0; `nulled` tells whether `NULL` was stored through
  `lpBuffer` (otherwise it was left as it was). -/
  | fail (nulled : Bool)
  deriving DecidableEq, Repr

/-- The operating system as `FormatNtStatus` sees it. The first argument of `LoadLibraryA`
and of `FormatMessageA` is the loop iteration that makes the call, so that every behaviour
over one dump is covered. -/
structure Os where
  /-- Whether `LoadLibraryA("NTDLL.DLL")` returns a handle other than `NULL`. -/
  LoadLibraryA : Nat → Bool
  RtlNtStatusToDosError : Nat → Nat
  FormatMessageA : Nat → Nat → FormatMessageResult

/-- What a call of `FormatNtStatus` leaves behind. -/
structure FormatNtStatusResult where
  /-- The returned `DWORD`. -/
  dwRes : Nat
  /-- The value of `*ppszMessage` after the call. -/
  pszMessage : Nat
  heap : Heap

/-- The function `FormatNtStatus(nsCode, ppszMessage)`. `nsCode` is the 32-bit pattern of
the `NTSTATUS`, `pszMessage` the value of `*ppszMessage` before the call. `FreeLibrary` has
no effect on this state. -/
def FormatNtStatus (os : Os) (slot : Nat) (heap : Heap) (nsCode : Nat) (pszMessage : Nat) :
    FormatNtStatusResult :=
  if os.LoadLibraryA slot = false then
    { dwRes := 0, pszMessage := pszMessage, heap := heap }
  else
    match os.FormatMessageA slot (os.RtlNtStatusToDosError nsCode) with
    | FormatMessageResult.ok buf text =>
        { dwRes := text.length, pszMessage := buf,
          heap := fun a => if a = buf then text else heap a }
    | FormatMessageResult.fail nulled =>
        { dwRes := 0, pszMessage := if nulled then 0 else pszMessage, heap := heap }

/-! ## Event dump (`wdlive`, `wdcurr`) -/

/-- The text a `const char*` of `contextStrings` points to. -/
def cstrText (heap : Heap) : CPtr → String
  | CPtr.emptyLiteral => ""
  | CPtr.raw p => heap p

/-- The first `char` of a NUL-terminated string: the NUL itself when the string is empty. -/
def firstChar (s : String) : Char :=
  s.data.headD (Char.ofNat 0)

/-- State threaded through the two loops of a dump. -/
structure DumpState where
  /-- The local array `contextStrings`, indexed by slot (only slots 0 to 4 are used). -/
  contextStrings : Nat → CPtr
  heap : Heap
  trace : List Event

/-- One iteration of the resolution loop (source lines 165 to 182 and 243 to 260).
`str i` is the value the local `char* str`, which the source declares without an
initialiser, holds when iteration `i` reaches the call. -/
def resolveSlot (os : Os) (str : Nat → Nat) (data : List Nat) (st : DumpState) (i : Nat) :
    DumpState :=
  if data.getD i 0 >>> 32 ≠ 0xFFFFFFFF then st
  else if data.getD i 0 &&& 0xF0000000 ≠ 0xC0000000 then st
  else
    let r := FormatNtStatus os i st.heap (data.getD i 0 &&& 0xFFFFFFFF) (str i)
    { contextStrings :=
        if r.pszMessage ≠ 0 then Function.update st.contextStrings i (CPtr.raw r.pszMessage)
        else st.contextStrings
      heap := r.heap
      trace := st.trace ++ [Event.formatNtStatus i (data.getD i 0 &&& 0xFFFFFFFF)] }

/-- The `%s` argument for `contextStrings[i]`. -/
def contextArg (st : DumpState) (i : Nat) : OutArg :=
  OutArg.cstr (st.contextStrings i) (cstrText st.heap (st.contextStrings i))

/-- The `Out` call that prints the five data words (source lines 185 and 263). -/
def dataLine (fmt : String) (data : List Nat) (st : DumpState) : Event :=
  Event.out fmt
    [OutArg.u64 (data.getD 0 0), contextArg st 0, OutArg.u64 (data.getD 1 0), contextArg st 1,
     OutArg.u64 (data.getD 2 0), contextArg st 2, OutArg.u64 (data.getD 3 0), contextArg st 3,
     OutArg.u64 (data.getD 4 0), contextArg st 4]

/-- One iteration of the release loop (source lines 191 to 194 and 269 to 272). -/
def releaseSlot (st : DumpState) (i : Nat) : DumpState :=
  if firstChar (cstrText st.heap (st.contextStrings i)) ≠ Char.ofNat 0 then
    { st with trace := st.trace ++ [Event.localFree (st.contextStrings i)] }
  else st

/-- The part `wdlive` (lines 161 to 195) and `wdcurr` (lines 239 to 273) have in common:
resolve the five words, print the data line with format `fmt`, release the strings. -/
def dumpData (fmt : String) (os : Os) (str : Nat → Nat) (data : List Nat) (st0 : DumpState) :
    DumpState :=
  let st1 := (List.range 5).foldl (resolveSlot os str data) st0
  let st2 := { st1 with trace := st1.trace ++ [dataLine fmt data st1] }
  (List.range 5).foldl releaseSlot st2

/-- The initialiser `{ "", "", "", "", "" }` of `contextStrings`. -/
def contextStringsInit : Nat → CPtr :=
  fun _ => CPtr.emptyLiteral

/-- The array `data` of `wdlive`: five `ULONG64` at `addr + 0x20`, ..., `addr + 0x40`. -/
def liveData (mem : Mem) (addr : Nat) : List Nat :=
  [GetUlong64 mem (addr + 0x20), GetUlong64 mem (addr + 0x28), GetUlong64 mem (addr + 0x30),
   GetUlong64 mem (addr + 0x38), GetUlong64 mem (addr + 0x40)]

/-- The array `data` of `wdcurr`: five `ULONG64` at `addr + 0x18`, ..., `addr + 0x38`. -/
def currData (mem : Mem) (addr : Nat) : List Nat :=
  [GetUlong64 mem (addr + 0x18), GetUlong64 mem (addr + 0x20), GetUlong64 mem (addr + 0x28),
   GetUlong64 mem (addr + 0x30), GetUlong64 mem (addr + 0x38)]

/-- Format string of the data line of `wdlive`. -/
def liveDataFmt : String :=
  "                       Data: % 016p %s % 016p %s % 016p %s % 016p %s % 016p %s\n"

/-- Format string of the data line of `wdcurr`. -/
def currDataFmt : String :=
  "Data: % 016p %s % 016p %s % 016p %s % 016p %s % 016p %s\n"

/-- The two `Out` calls that open `wdlive` (source lines 147 to 152). The category is the
`ULONG` at `addr`, cast to `LogCategory` and used as the index without a check. -/
def liveHeader (mem : Mem) (addr : Nat) : List Event :=
  [Event.out "Watchdog Live Event:\n" [],
   Event.out "% 18s #% 08d thread=% 016p addr=% 016p\n"
     [categoryNameArg (GetUlong mem (addr + 0x00)),
      OutArg.u64 (GetUlong64 mem (addr + 0x08)),
      OutArg.u64 (GetUlong64 mem (addr + 0x10)),
      OutArg.u64 (GetUlong64 mem (addr + 0x18))]]

/-- The two `Out` calls that open `wdcurr` (source lines 226 to 230). -/
def currHeader (mem : Mem) (addr : Nat) : List Event :=
  [Event.out "Watchdog Current Event:\n" [],
   Event.out "#% 08d thread=% 016p addr=% 016p\n"
     [OutArg.u64 (GetUlong64 mem (addr + 0x00)),
      OutArg.u64 (GetUlong64 mem (addr + 0x08)),
      OutArg.u64 (GetUlong64 mem (addr + 0x10))]]

/-- The command `wdlive`. `addr` is the value of `watchdog!WdLogLiveDumpInfo`. -/
def wdlive (os : Os) (str : Nat → Nat) (heap : Heap) (mem : Mem) (addr : Nat) : DumpState :=
  dumpData liveDataFmt os str (liveData mem addr)
    { contextStrings := contextStringsInit, heap := heap, trace := liveHeader mem addr }

/-- The command `wdcurr`. `addr` is the value of the register `@rbx`. -/
def wdcurr (os : Os) (str : Nat → Nat) (heap : Heap) (mem : Mem) (addr : Nat) : DumpState :=
  dumpData currDataFmt os str (currData mem addr)
    { contextStrings := contextStringsInit, heap := heap, trace := currHeader mem addr }

/-! ## Live breakpoint (`wdlivebpinstall`, `Extension::Uninitialize`) -/

/-- The breakpoint flags the extension uses (`DEBUG_BREAKPOINT_*` of the debugger SDK). -/
inductive BpFlag where
  | ADDER_ONLY
  | GO_ONLY
  | ENABLED
  deriving DecidableEq, Repr

/-- A breakpoint object of the debugger engine. -/
structure Breakpoint where
  /-- The `PDEBUG_BREAKPOINT` value that designates it; never null. -/
  handle : Nat
  offsetExpression : Option String
  command : Option String
  flags : List BpFlag
  deriving DecidableEq, Repr

/-- A call received by the breakpoint subsystem. -/
inductive EngineCall where
  | AddBreakpoint
  | RemoveBreakpoint (bp : Nat)
  | SetOffsetExpression (bp : Nat) (expression : String)
  | SetCommand (bp : Nat) (command : String)
  | AddFlags (bp : Nat) (flags : List BpFlag)
  deriving DecidableEq, Repr

/-- The breakpoint subsystem behind `m_Control`, restricted to what the extension asks of it. -/
structure Control where
  /-- Breakpoints created through `AddBreakpoint` and not removed since. -/
  breakpoints : List Breakpoint
  /-- Number of breakpoints created so far; the next one gets handle `created + 1`. -/
  created : Nat
  /-- Every call received so far, oldest first. -/
  calls : List EngineCall
  deriving DecidableEq, Repr

/-- The result code `S_OK`. -/
def S_OK : Int := 0

/-- The engine call `AddBreakpoint(DEBUG_BREAKPOINT_CODE, DEBUG_ANY_ID, &bp)` when the engine
answers `hr`: with `S_OK` a new breakpoint exists and its handle is stored in `bp`; with
any other code no breakpoint is created and `bp` keeps its value. -/
def AddBreakpoint (hr : Int) (c : Control) (bp : Nat) : Control × Nat :=
  if hr = S_OK then
    ({ breakpoints := c.breakpoints ++
         [{ handle := c.created + 1, offsetExpression := none, command := none, flags := [] }]
       created := c.created + 1
       calls := c.calls ++ [EngineCall.AddBreakpoint] },
     c.created + 1)
  else
    ({ c with calls := c.calls ++ [EngineCall.AddBreakpoint] }, bp)

/-- The engine call `RemoveBreakpoint(bp)`. -/
def RemoveBreakpoint (c : Control) (bp : Nat) : Control :=
  { c with
    breakpoints := c.breakpoints.filter (fun b => b.handle != bp)
    calls := c.calls ++ [EngineCall.RemoveBreakpoint bp] }

/-- Apply `f` to the breakpoint designated by `bp`. -/
def onBreakpoint (bps : List Breakpoint) (bp : Nat) (f : Breakpoint → Breakpoint) :
    List Breakpoint :=
  bps.map (fun b => if b.handle = bp then f b else b)

/-- The call `bp->SetOffsetExpression(expression)`. -/
def SetOffsetExpression (c : Control) (bp : Nat) (expression : String) : Control :=
  { c with
    breakpoints := onBreakpoint c.breakpoints bp
      (fun b => { b with offsetExpression := some expression })
    calls := c.calls ++ [EngineCall.SetOffsetExpression bp expression] }

/-- The call `bp->SetCommand(command)`. -/
def SetCommand (c : Control) (bp : Nat) (command : String) : Control :=
  { c with
    breakpoints := onBreakpoint c.breakpoints bp (fun b => { b with command := some command })
    calls := c.calls ++ [EngineCall.SetCommand bp command] }

/-- The call `bp->AddFlags(flags)`. -/
def AddFlags (c : Control) (bp : Nat) (flags : List BpFlag) : Control :=
  { c with
    breakpoints := onBreakpoint c.breakpoints bp (fun b => { b with flags := b.flags ++ flags })
    calls := c.calls ++ [EngineCall.AddFlags bp flags] }

/-- The state of the extension object that the breakpoint commands touch. -/
structure Extension where
  /-- The member `m_liveEventBp`; 0 is `nullptr`. -/
  m_liveEventBp : Nat
  control : Control
  trace : List Event
  deriving DecidableEq, Repr

/-- The constructor `Extension()`, with an engine that holds no breakpoint yet. -/
def Extension.init : Extension :=
  { m_liveEventBp := 0, control := { breakpoints := [], created := 0, calls := [] },
    trace := [] }

/-- The command `wdlivebpinstall`. `hasArgR` is `HasArg("r")`; `hr` is the code the engine
answers if `AddBreakpoint` is called. -/
def wdlivebpinstall (hasArgR : Bool) (hr : Int) (e : Extension) : Extension :=
  if hasArgR then
    if e.m_liveEventBp ≠ 0 then
      { m_liveEventBp := 0
        control := RemoveBreakpoint e.control e.m_liveEventBp
        trace := e.trace ++ [Event.out "Live Watchdog breakpoint removed!\n" []] }
    else
      { e with trace := e.trace ++ [Event.out "No existing Live Watchdog breakpoint!\n" []] }
  else if e.m_liveEventBp ≠ 0 then
    { e with trace := e.trace ++ [Event.out "Live Watchdog breakpoint already installed!\n" []] }
  else
    let r := AddBreakpoint hr e.control e.m_liveEventBp
    if hr ≠ S_OK then
      { m_liveEventBp := r.2, control := r.1
        trace := e.trace ++ [Event.out "Failed to create breakpoint!\n" []] }
    else
      let c1 := SetOffsetExpression r.1 r.2 "watchdog!WdLogLiveDumpBreakpoint"
      let c2 := SetCommand c1 r.2 "!watchdog.wdlive; g"
      let c3 := AddFlags c2 r.2 [BpFlag.ADDER_ONLY, BpFlag.GO_ONLY, BpFlag.ENABLED]
      { m_liveEventBp := r.2, control := c3
        trace := e.trace ++ [Event.out "Installed Live Watchdog breakpoint!\n" []] }

/-- The method `Extension::Uninitialize` (the base class call has no effect on this state). -/
def Uninitialize (e : Extension) : Extension :=
  if e.m_liveEventBp ≠ 0 then
    { e with m_liveEventBp := 0, control := RemoveBreakpoint e.control e.m_liveEventBp }
  else e

/-- One action on the extension: a `wdlivebpinstall` without `r` (with the engine's answer
to a possible `AddBreakpoint`), a `wdlivebpinstall r`, or the unloading of the extension. -/
inductive Step where
  | install (hr : Int)
  | remove
  | teardown
  deriving DecidableEq, Repr

/-- Perform one action. -/
def step (e : Extension) : Step → Extension
  | Step.install hr => wdlivebpinstall false hr e
  | Step.remove => wdlivebpinstall true S_OK e
  | Step.teardown => Uninitialize e

/-- Perform a sequence of actions, starting from the constructed extension. -/
def run (steps : List Step) : Extension :=
  steps.foldl step Extension.init

/-! ## Example inputs -/

/-- Example target memory: every byte is zero except the eight bytes at `0x38`, which hold
`0xFFFFFFFFC0000005` (little-endian). Seen from `addr = 0` this is data word 3 of the live
record; seen from `addr = 8` it is data word 3 of the current record. -/
def memWord3 : Mem :=
  fun a => if a = 0x38 then 0x05 else if a = 0x3B then 0xC0
    else if 0x3C ≤ a ∧ a ≤ 0x3F then 0xFF else 0

/-- Example target memory: as `memWord3`, and the eight bytes at `0x30` hold
`0xFFFFFFFFC0000005` as well (data words 2 and 3 of the live record at `addr = 0`). -/
def memWords23 : Mem :=
  fun a => if a = 0x30 ∨ a = 0x38 then 0x05 else if a = 0x33 ∨ a = 0x3B then 0xC0
    else if (0x34 ≤ a ∧ a ≤ 0x37) ∨ (0x3C ≤ a ∧ a ≤ 0x3F) then 0xFF else 0

/-- Example operating system: `NTDLL.DLL` loads, `0xC0000005` maps to error 998 and has
the message text "Invalid access to memory location." in the buffer at `0x1000`. -/
def osText : Os :=
  { LoadLibraryA := fun _ => true
    RtlNtStatusToDosError := fun c => if c = 0xC0000005 then 998 else 317
    FormatMessageA := fun _ id =>
      if id = 998 then FormatMessageResult.ok 0x1000 "Invalid access to memory location."
      else FormatMessageResult.fail false }

/-- Example operating system: `LoadLibraryA("NTDLL.DLL")` returns `NULL`. -/
def osNoModule : Os :=
  { LoadLibraryA := fun _ => false
    RtlNtStatusToDosError := fun _ => 317
    FormatMessageA := fun _ _ => FormatMessageResult.fail false }

/-- Example operating system: as `osText` for the call of iteration 2; from iteration 3 on
`LoadLibraryA("NTDLL.DLL")` returns `NULL`. -/
def osTextThenNoModule : Os :=
  { LoadLibraryA := fun slot => decide (slot ≤ 2)
    RtlNtStatusToDosError := fun c => if c = 0xC0000005 then 998 else 317
    FormatMessageA := fun _ id =>
      if id = 998 then FormatMessageResult.ok 0x1000 "Invalid access to memory location."
      else FormatMessageResult.fail false }

/-- Example debugger memory: the bytes at `0xCCCCCCCCCCCCCCCC` read as the string "junk",
every other address as the empty string. -/
def heapJunk : Heap :=
  fun p => if p = 0xCCCCCCCCCCCCCCCC then "junk" else ""

/-! ## Facts about the category table -/

theorem and_one_shiftLeft_ne_zero (m i : Nat) : ((m &&& (1 <<< i)) != 0) = m.testBit i := by
  rw [Nat.one_shiftLeft, Nat.and_two_pow]
  cases h : m.testBit i <;> simp

theorem dbgOffset_ne_logOffset (addr i j : Nat) : dbgOffset addr i ≠ logOffset addr j := by
  unfold dbgOffset logOffset categoryOffset
  omega

theorem GetBoolean_SetBoolean_same (mem : Mem) (a : Nat) (b : Bool) :
    GetBoolean (SetBoolean mem a b) a = b := by
  cases b <;> simp [GetBoolean, GetUchar, SetBoolean]

theorem GetBoolean_SetBoolean_other (mem : Mem) (a a' : Nat) (b : Bool) (h : a' ≠ a) :
    GetBoolean (SetBoolean mem a b) a' = GetBoolean mem a' := by
  simp [GetBoolean, GetUchar, SetBoolean, h]

theorem readCategoryFlags_write_same (mem : Mem) (addr i : Nat) (l d : Bool) :
    readCategoryFlags (writeCategoryFlags mem addr i l d) addr i = (l, d) := by
  unfold readCategoryFlags writeCategoryFlags
  rw [GetBoolean_SetBoolean_same,
    GetBoolean_SetBoolean_other _ _ _ _ (dbgOffset_ne_logOffset addr i i),
    GetBoolean_SetBoolean_same]

/-- C1: over byte-addressed target memory, for every table base, every category index and
every pair of booleans, writing the flags of the category as `wdcfg` does (break byte at
`base + 0x18 * i + 0x10`, log byte at `base + 0x18 * i + 0x11`, in `ULONG64` arithmetic)
and then reading them at the same two addresses returns exactly the written pair; the
memory one iteration of `wdcfg` leaves is that write. -/
theorem wdcfg_flags_roundtrip (mem : Mem) (addr i : Nat) (log brk : Bool) :
    readCategoryFlags (writeCategoryFlags mem addr i log brk) addr i = (log, brk)
    ∧ dbgOffset addr i = (addr + 0x18 * i + 0x10) % 2 ^ 64
    ∧ logOffset addr i = (addr + 0x18 * i + 0x11) % 2 ^ 64
    ∧ ∀ (lm bm : Nat) (trace : List Event),
        (wdcfgCategory lm bm addr { mem := mem, trace := trace } i).mem
          = writeCategoryFlags mem addr i (lm.testBit i) (bm.testBit i) := by
  refine ⟨readCategoryFlags_write_same mem addr i log brk, ?_, ?_, ?_⟩
  · unfold dbgOffset categoryOffset
    omega
  · unfold logOffset categoryOffset
    omega
  · intro lm bm trace
    simp only [wdcfgCategory, and_one_shiftLeft_ne_zero]

theorem and_div_two_pow (a b n : Nat) : (a &&& b) / 2 ^ n = a / 2 ^ n &&& b / 2 ^ n := by
  induction n with
  | zero => simp
  | succ n ih => rw [Nat.pow_succ, ← Nat.div_div_eq_div_mul, ih, Nat.and_div_two,
      Nat.div_div_eq_div_mul, Nat.div_div_eq_div_mul]

theorem and_low32 (w : Nat) : w &&& 0xFFFFFFFF = w % 2 ^ 32 :=
  Nat.and_pow_two_sub_one_eq_mod w 32

theorem and_nibble (w : Nat) :
    w &&& 0xF0000000 = 0xC0000000 ↔ w % 2 ^ 32 / 2 ^ 28 = 0xC := by
  have hlow : (w &&& 0xF0000000) % 2 ^ 28 = 0 := by
    rw [← Nat.and_pow_two_sub_one_eq_mod, Nat.and_assoc,
      show (0xF0000000 : Nat) &&& (2 ^ 28 - 1) = 0 from by decide, Nat.and_zero]
  have hhigh : (w &&& 0xF0000000) / 2 ^ 28 = w / 2 ^ 28 % 2 ^ 4 := by
    rw [and_div_two_pow, ← Nat.and_pow_two_sub_one_eq_mod]
    rfl
  have hsplit := Nat.div_add_mod (w &&& 0xF0000000) (2 ^ 28)
  rw [hlow, hhigh] at hsplit
  omega

theorem FormatNtStatus_pszMessage_heap (os : Os) (slot : Nat) (heap heap' : Heap)
    (nsCode pszMessage : Nat) :
    (FormatNtStatus os slot heap nsCode pszMessage).pszMessage
      = (FormatNtStatus os slot heap' nsCode pszMessage).pszMessage := by
  unfold FormatNtStatus
  split
  · rfl
  · split <;> rfl

theorem resolveSlot_other (os : Os) (str : Nat → Nat) (data : List Nat) (st : DumpState)
    (i j : Nat) (h : j ≠ i) :
    (resolveSlot os str data st i).contextStrings j = st.contextStrings j := by
  unfold resolveSlot
  split
  · rfl
  · split
    · rfl
    · dsimp only
      split
      · exact Function.update_noteq h _ _
      · rfl

theorem resolveSlot_congr (os : Os) (str : Nat → Nat) (data data' : List Nat)
    (st st' : DumpState) (i : Nat) (hd : data.getD i 0 = data'.getD i 0)
    (hs : st.contextStrings i = st'.contextStrings i) :
    (resolveSlot os str data st i).contextStrings i
      = (resolveSlot os str data' st' i).contextStrings i := by
  unfold resolveSlot
  rw [← hd]
  split
  · exact hs
  · split
    · exact hs
    · dsimp only
      rw [FormatNtStatus_pszMessage_heap os i st.heap st'.heap]
      split
      · simp
      · exact hs

/-- The resolution loop over a list of slots: the calls it makes. -/
theorem resolve_trace (os : Os) (str : Nat → Nat) (data : List Nat) (l : List Nat)
    (st : DumpState) :
    (l.foldl (resolveSlot os str data) st).trace
      = st.trace ++ l.filterMap (fun i =>
          if data.getD i 0 >>> 32 = 0xFFFFFFFF ∧ data.getD i 0 &&& 0xF0000000 = 0xC0000000
          then some (Event.formatNtStatus i (data.getD i 0 &&& 0xFFFFFFFF)) else none) := by
  induction l generalizing st with
  | nil => simp
  | cons i l ih =>
    rw [List.foldl_cons, ih, List.filterMap_cons]
    simp only [resolveSlot]
    generalize data.getD i 0 = w
    by_cases h1 : w >>> 32 = 0xFFFFFFFF
    · by_cases h2 : w &&& 0xF0000000 = 0xC0000000
      · simp [h1, h2]
      · simp [h1, h2]
    · simp [h1]

/-- The resolution loop over a list of distinct slots: what each slot holds afterwards. -/
theorem resolve_slot (os : Os) (str : Nat → Nat) (data : List Nat) (l : List Nat)
    (hl : l.Nodup) (st : DumpState) (j : Nat) :
    (l.foldl (resolveSlot os str data) st).contextStrings j
      = if j ∈ l then (resolveSlot os str data st j).contextStrings j
        else st.contextStrings j := by
  induction l generalizing st with
  | nil => simp
  | cons i l ih =>
    rw [List.foldl_cons, ih (List.nodup_cons.mp hl).2]
    by_cases hj : j = i
    · subst hj
      simp [(List.nodup_cons.mp hl).1]
    · by_cases hm : j ∈ l
      · simp only [hm, List.mem_cons, or_true, if_true]
        exact resolveSlot_congr os str data data _ _ j rfl (resolveSlot_other os str data st i j hj)
      · simp only [hm, List.mem_cons, hj, or_self, if_false]
        exact resolveSlot_other os str data st i j hj

/-- The release loop: it keeps the array and the heap, and frees slot by slot. -/
theorem release_fold (l : List Nat) (st : DumpState) :
    (l.foldl releaseSlot st).contextStrings = st.contextStrings
    ∧ (l.foldl releaseSlot st).heap = st.heap
    ∧ (l.foldl releaseSlot st).trace = st.trace ++ l.filterMap (fun i =>
        if firstChar (cstrText st.heap (st.contextStrings i)) ≠ Char.ofNat 0
        then some (Event.localFree (st.contextStrings i)) else none) := by
  induction l generalizing st with
  | nil => simp
  | cons i l ih =>
    obtain ⟨h1, h2, h3⟩ := ih (releaseSlot st i)
    rw [List.foldl_cons, h1, h2, h3, List.filterMap_cons]
    by_cases h : firstChar (cstrText st.heap (st.contextStrings i)) = Char.ofNat 0
    · simp [releaseSlot, h]
    · simp [releaseSlot, h]

theorem release_contextStrings (l : List Nat) (st : DumpState) :
    (l.foldl releaseSlot st).contextStrings = st.contextStrings :=
  (release_fold l st).1

theorem release_heap (l : List Nat) (st : DumpState) :
    (l.foldl releaseSlot st).heap = st.heap :=
  (release_fold l st).2.1

theorem release_trace (l : List Nat) (st : DumpState) :
    (l.foldl releaseSlot st).trace = st.trace ++ l.filterMap (fun i =>
        if firstChar (cstrText st.heap (st.contextStrings i)) ≠ Char.ofNat 0
        then some (Event.localFree (st.contextStrings i)) else none) :=
  (release_fold l st).2.2

/-- The trace of the common part of a dump: the resolution calls, then the data line built
from the final array, then the releases. -/
theorem dumpData_trace (fmt : String) (os : Os) (str : Nat → Nat) (data : List Nat)
    (st0 : DumpState) :
    (dumpData fmt os str data st0).trace
      = st0.trace
        ++ (List.range 5).filterMap (fun i =>
          if data.getD i 0 >>> 32 = 0xFFFFFFFF ∧ data.getD i 0 &&& 0xF0000000 = 0xC0000000
          then some (Event.formatNtStatus i (data.getD i 0 &&& 0xFFFFFFFF)) else none)
        ++ [dataLine fmt data (dumpData fmt os str data st0)]
        ++ (List.range 5).filterMap (fun i =>
          if firstChar (cstrText (dumpData fmt os str data st0).heap
                ((dumpData fmt os str data st0).contextStrings i)) ≠ Char.ofNat 0
          then some (Event.localFree ((dumpData fmt os str data st0).contextStrings i))
          else none) := by
  have ht := resolve_trace os str data (List.range 5) st0
  unfold dumpData
  generalize (List.range 5).foldl (resolveSlot os str data) st0 = st1 at ht ⊢
  generalize List.range 5 = l at ht ⊢
  simp only [release_contextStrings, release_heap, release_trace, ht, dataLine, contextArg,
    List.append_assoc]

/-- What slot `j` of `contextStrings` holds when the dump is over. -/
theorem dumpData_slot (fmt : String) (os : Os) (str : Nat → Nat) (data : List Nat)
    (st0 : DumpState) (j : Nat) (hj : j < 5) :
    (dumpData fmt os str data st0).contextStrings j
      = (resolveSlot os str data st0 j).contextStrings j := by
  have hs := resolve_slot os str data _ (List.nodup_range 5) st0 j
  rw [if_pos (List.mem_range.mpr hj)] at hs
  unfold dumpData
  generalize (List.range 5).foldl (resolveSlot os str data) st0 = st1 at hs ⊢
  simp only [release_contextStrings, hs]

/-- Which calls of `FormatNtStatus` the common part of a dump makes. -/
theorem formatNtStatus_mem_dumpData (fmt : String) (os : Os) (str : Nat → Nat)
    (data : List Nat) (st0 : DumpState) (i c : Nat)
    (h0 : Event.formatNtStatus i c ∉ st0.trace) :
    Event.formatNtStatus i c ∈ (dumpData fmt os str data st0).trace ↔
      i < 5 ∧ data.getD i 0 / 2 ^ 32 = 0xFFFFFFFF ∧ data.getD i 0 % 2 ^ 32 / 2 ^ 28 = 0xC
        ∧ c = data.getD i 0 % 2 ^ 32 := by
  rw [dumpData_trace]
  simp only [List.mem_append, List.mem_filterMap, List.mem_range, List.mem_singleton, h0,
    false_or, dataLine, reduceCtorEq, or_false]
  constructor
  · rintro (⟨a, ha, hev⟩ | ⟨a, _, hev⟩)
    · split at hev
      · rename_i hc
        simp only [Option.some.injEq, Event.formatNtStatus.injEq] at hev
        obtain ⟨rfl, rfl⟩ := hev
        rw [← and_nibble, ← and_low32, ← Nat.shiftRight_eq_div_pow]
        exact ⟨ha, hc.1, hc.2, rfl⟩
      · exact absurd hev (by simp)
    · split at hev
      · exact absurd hev (by simp)
      · exact absurd hev (by simp)
  · rintro ⟨hi, h1, h2, rfl⟩
    rw [← and_nibble] at h2
    rw [← Nat.shiftRight_eq_div_pow] at h1
    refine Or.inl ⟨i, hi, ?_⟩
    rw [if_pos ⟨h1, h2⟩, and_low32]


theorem dataLine_mem_dumpData (fmt : String) (os : Os) (str : Nat → Nat) (data : List Nat)
    (st0 : DumpState) :
    dataLine fmt data (dumpData fmt os str data st0) ∈ (dumpData fmt os str data st0).trace := by
  rw [dumpData_trace]
  simp only [List.mem_append, List.mem_singleton, or_true, true_or]

/-- A word whose upper half is not `0xFFFFFFFF` leaves its slot as the initialiser set it. -/
theorem dumpData_slot_unresolved (fmt : String) (os : Os) (str : Nat → Nat) (data : List Nat)
    (st0 : DumpState) (i : Nat) (hi : i < 5) (hw : data.getD i 0 / 2 ^ 32 ≠ 0xFFFFFFFF) :
    (dumpData fmt os str data st0).contextStrings i = st0.contextStrings i := by
  rw [dumpData_slot fmt os str data st0 i hi]
  unfold resolveSlot
  rw [if_pos (by rwa [Nat.shiftRight_eq_div_pow])]

/-- C3: in `wdlive` and in `wdcurr` alike, `FormatNtStatus` is called for slot `i` with code
`c` if and only if `i` is one of the five slots, the upper 32 bits of data word `i` are
`0xFFFFFFFF`, the top nibble of its lower 32 bits is `0xC`, and `c` is its lower 32 bits.
A word whose upper 32 bits differ from `0xFFFFFFFF` is printed with the empty placeholder,
whatever its lower bits and whatever the operating system would answer. -/
theorem dump_resolves_status_candidates_only (os : Os) (str : Nat → Nat) (heap : Heap)
    (mem : Mem) (addr i c : Nat) :
    (Event.formatNtStatus i c ∈ (wdlive os str heap mem addr).trace ↔
      i < 5 ∧ (liveData mem addr).getD i 0 / 2 ^ 32 = 0xFFFFFFFF
        ∧ (liveData mem addr).getD i 0 % 2 ^ 32 / 2 ^ 28 = 0xC
        ∧ c = (liveData mem addr).getD i 0 % 2 ^ 32)
    ∧ (Event.formatNtStatus i c ∈ (wdcurr os str heap mem addr).trace ↔
      i < 5 ∧ (currData mem addr).getD i 0 / 2 ^ 32 = 0xFFFFFFFF
        ∧ (currData mem addr).getD i 0 % 2 ^ 32 / 2 ^ 28 = 0xC
        ∧ c = (currData mem addr).getD i 0 % 2 ^ 32)
    ∧ (i < 5 → (liveData mem addr).getD i 0 / 2 ^ 32 ≠ 0xFFFFFFFF →
        contextArg (wdlive os str heap mem addr) i = OutArg.cstr CPtr.emptyLiteral "")
    ∧ (i < 5 → (currData mem addr).getD i 0 / 2 ^ 32 ≠ 0xFFFFFFFF →
        contextArg (wdcurr os str heap mem addr) i = OutArg.cstr CPtr.emptyLiteral "")
    ∧ dataLine liveDataFmt (liveData mem addr) (wdlive os str heap mem addr)
        ∈ (wdlive os str heap mem addr).trace
    ∧ dataLine currDataFmt (currData mem addr) (wdcurr os str heap mem addr)
        ∈ (wdcurr os str heap mem addr).trace := by
  refine ⟨?_, ?_, ?_, ?_, ?_, ?_⟩
  · exact formatNtStatus_mem_dumpData _ _ _ _ _ _ _ (by simp [liveHeader])
  · exact formatNtStatus_mem_dumpData _ _ _ _ _ _ _ (by simp [currHeader])
  · intro hi hw
    unfold contextArg wdlive
    rw [dumpData_slot_unresolved _ _ _ _ _ i hi hw]
    rfl
  · intro hi hw
    unfold contextArg wdcurr
    rw [dumpData_slot_unresolved _ _ _ _ _ i hi hw]
    rfl
  · exact dataLine_mem_dumpData _ _ _ _ _
  · exact dataLine_mem_dumpData _ _ _ _ _

/-- Witness of C3: in the live record of `memWord3` at 0, word 0 is zero and is printed with
the empty placeholder although the operating system has text to offer; in the current
record at 8 likewise. -/
theorem dump_resolves_status_candidates_only_witness :
    contextArg (wdlive osText (fun _ => 0) heapJunk memWord3 0) 0
        = OutArg.cstr CPtr.emptyLiteral ""
    ∧ contextArg (wdcurr osText (fun _ => 0) heapJunk memWord3 8) 0
        = OutArg.cstr CPtr.emptyLiteral "" :=
  ⟨(dump_resolves_status_candidates_only osText (fun _ => 0) heapJunk memWord3 0 0 0).2.2.1
      (by decide) (by decide),
   (dump_resolves_status_candidates_only osText (fun _ => 0) heapJunk memWord3 8 0 0).2.2.2.1
      (by decide) (by decide)⟩

theorem resolveSlot_skip (os : Os) (str : Nat → Nat) (data : List Nat) (st : DumpState)
    (i : Nat) (h : data.getD i 0 / 2 ^ 32 ≠ 0xFFFFFFFF) :
    resolveSlot os str data st i = st := by
  unfold resolveSlot
  rw [if_pos (by rwa [Nat.shiftRight_eq_div_pow])]

theorem resolveSlot_text (os : Os) (str : Nat → Nat) (data : List Nat) (st : DumpState)
    (i buf : Nat) (text : String)
    (h1 : data.getD i 0 / 2 ^ 32 = 0xFFFFFFFF) (h2 : data.getD i 0 % 2 ^ 32 / 2 ^ 28 = 0xC)
    (code : Nat) (hcode : data.getD i 0 % 2 ^ 32 = code)
    (hload : os.LoadLibraryA i = true)
    (hfmt : os.FormatMessageA i (os.RtlNtStatusToDosError code)
      = FormatMessageResult.ok buf text)
    (hbuf : buf ≠ 0) :
    resolveSlot os str data st i
      = { contextStrings := Function.update st.contextStrings i (CPtr.raw buf)
          heap := fun a => if a = buf then text else st.heap a
          trace := st.trace ++ [Event.formatNtStatus i code] } := by
  subst hcode
  unfold resolveSlot
  rw [if_neg (by rw [Nat.shiftRight_eq_div_pow]; exact not_not.mpr h1),
    if_neg (not_not.mpr ((and_nibble _).mpr h2)), and_low32]
  unfold FormatNtStatus
  rw [if_neg (by rw [hload]; exact Bool.noConfusion), hfmt]
  dsimp only
  rw [if_pos hbuf]

theorem releaseSlot_free (st : DumpState) (i : Nat)
    (h : firstChar (cstrText st.heap (st.contextStrings i)) ≠ Char.ofNat 0) :
    releaseSlot st i
      = { st with trace := st.trace ++ [Event.localFree (st.contextStrings i)] } := by
  unfold releaseSlot
  rw [if_pos h]

theorem releaseSlot_empty (st : DumpState) (i : Nat)
    (h : st.contextStrings i = CPtr.emptyLiteral) : releaseSlot st i = st := by
  unfold releaseSlot
  rw [h, if_neg (by simp [cstrText, firstChar])]

/-- What `wdlive` does guarantee about its data line: it lists the five data words in
positional order, each one followed by the string of the same slot, and the pointer in
slot `i` is determined by word `i`, the operating system and the value `str` starts with.
For a record whose word 3 is `0xFFFFFFFFC0000005` and whose other words are 0, when the
operating system yields a buffer with non-empty text for code `0xC0000005`, slot 3 carries
that text and slots 0, 1, 2 and 4 carry the empty placeholder. -/
theorem wdlive_data_line (os : Os) (str : Nat → Nat) (heap : Heap) (mem : Mem) (addr : Nat) :
    Event.out liveDataFmt
        [OutArg.u64 (GetUlong64 mem (addr + 0x20)), contextArg (wdlive os str heap mem addr) 0,
         OutArg.u64 (GetUlong64 mem (addr + 0x28)), contextArg (wdlive os str heap mem addr) 1,
         OutArg.u64 (GetUlong64 mem (addr + 0x30)), contextArg (wdlive os str heap mem addr) 2,
         OutArg.u64 (GetUlong64 mem (addr + 0x38)), contextArg (wdlive os str heap mem addr) 3,
         OutArg.u64 (GetUlong64 mem (addr + 0x40)), contextArg (wdlive os str heap mem addr) 4]
      ∈ (wdlive os str heap mem addr).trace
    ∧ (∀ (i : Nat) (heap' : Heap) (mem' : Mem) (addr' : Nat), i < 5 →
        (liveData mem' addr').getD i 0 = (liveData mem addr).getD i 0 →
        (wdlive os str heap' mem' addr').contextStrings i
          = (wdlive os str heap mem addr).contextStrings i)
    ∧ (∀ (buf : Nat) (text : String),
        liveData mem addr = [0, 0, 0, 0xFFFFFFFFC0000005, 0] →
        os.LoadLibraryA 3 = true →
        os.FormatMessageA 3 (os.RtlNtStatusToDosError 0xC0000005)
          = FormatMessageResult.ok buf text →
        buf ≠ 0 → firstChar text ≠ Char.ofNat 0 →
        (wdlive os str heap mem addr).trace
          = liveHeader mem addr ++
            [Event.formatNtStatus 3 0xC0000005,
             Event.out liveDataFmt
               [OutArg.u64 0, OutArg.cstr CPtr.emptyLiteral "",
                OutArg.u64 0, OutArg.cstr CPtr.emptyLiteral "",
                OutArg.u64 0, OutArg.cstr CPtr.emptyLiteral "",
                OutArg.u64 0xFFFFFFFFC0000005, OutArg.cstr (CPtr.raw buf) text,
                OutArg.u64 0, OutArg.cstr CPtr.emptyLiteral ""],
             Event.localFree (CPtr.raw buf)]) := by
  refine ⟨?_, ?_, ?_⟩
  · exact dataLine_mem_dumpData _ _ _ _ _
  · intro i heap' mem' addr' hi hw
    unfold wdlive
    rw [dumpData_slot _ _ _ _ _ i hi, dumpData_slot _ _ _ _ _ i hi]
    exact resolveSlot_congr os str _ _ _ _ i hw rfl
  · intro buf text hdata hload hfmt hbuf htext
    simp only [wdlive, dumpData, hdata]
    simp only [show List.range 5 = [0, 1, 2, 3, 4] from rfl, List.foldl_cons, List.foldl_nil]
    rw [resolveSlot_skip _ _ _ _ 0 (by decide), resolveSlot_skip _ _ _ _ 1 (by decide),
      resolveSlot_skip _ _ _ _ 2 (by decide),
      resolveSlot_text _ _ _ _ 3 buf text (by decide) (by decide) 0xC0000005 (by decide)
        hload hfmt hbuf,
      resolveSlot_skip _ _ _ _ 4 (by decide)]
    rw [releaseSlot_empty _ 0 (by simp [contextStringsInit]),
      releaseSlot_empty _ 1 (by simp [contextStringsInit]),
      releaseSlot_empty _ 2 (by simp [contextStringsInit]),
      releaseSlot_free _ 3 (by simpa [cstrText] using htext),
      releaseSlot_empty _ 4 (by simp [contextStringsInit])]
    simp [dataLine, contextArg, cstrText, contextStringsInit]

/-- The guarantee about the data line at a concrete input: the live record of `memWord3`
at 0 with the operating system `osText`; slot 3 gets the same pointer for the record of
`memWords23`, which has the same word 3. -/
theorem wdlive_data_line_witness :
    (wdlive osText (fun _ => 0) (fun _ => "") memWords23 0).contextStrings 3
        = (wdlive osText (fun _ => 0) heapJunk memWord3 0).contextStrings 3
    ∧ (wdlive osText (fun _ => 0) heapJunk memWord3 0).trace
        = liveHeader memWord3 0 ++
          [Event.formatNtStatus 3 0xC0000005,
           Event.out liveDataFmt
             [OutArg.u64 0, OutArg.cstr CPtr.emptyLiteral "",
              OutArg.u64 0, OutArg.cstr CPtr.emptyLiteral "",
              OutArg.u64 0, OutArg.cstr CPtr.emptyLiteral "",
              OutArg.u64 0xFFFFFFFFC0000005,
              OutArg.cstr (CPtr.raw 0x1000) "Invalid access to memory location.",
              OutArg.u64 0, OutArg.cstr CPtr.emptyLiteral ""],
           Event.localFree (CPtr.raw 0x1000)] :=
  ⟨(wdlive_data_line osText (fun _ => 0) heapJunk memWord3 0).2.1 3 (fun _ => "") memWords23 0
      (by decide) (by decide),
   (wdlive_data_line osText (fun _ => 0) heapJunk memWord3 0).2.2 0x1000
      "Invalid access to memory location." (by decide) (by decide) (by decide) (by decide)
      (by decide)⟩

/-- C5, the code at a failing input: word 3 of the live record passes the status-code test
and `LoadLibraryA` fails, so `FormatNtStatus` returns 0 and leaves `str` as it was, here
`0xCCCCCCCCCCCCCCCC`. `wdlive` prints slot 3 with the text found at that address instead of
the empty string, and passes the address to `LocalFree`. -/
theorem wdlive_no_text_uses_indeterminate_pointer :
    (FormatNtStatus osNoModule 3 heapJunk 0xC0000005 0xCCCCCCCCCCCCCCCC).dwRes = 0
    ∧ (FormatNtStatus osNoModule 3 heapJunk 0xC0000005 0xCCCCCCCCCCCCCCCC).pszMessage
        = 0xCCCCCCCCCCCCCCCC
    ∧ (wdlive osNoModule (fun _ => 0xCCCCCCCCCCCCCCCC) heapJunk memWord3 0).trace
        = liveHeader memWord3 0 ++
          [Event.formatNtStatus 3 0xC0000005,
           Event.out liveDataFmt
             [OutArg.u64 0, OutArg.cstr CPtr.emptyLiteral "",
              OutArg.u64 0, OutArg.cstr CPtr.emptyLiteral "",
              OutArg.u64 0, OutArg.cstr CPtr.emptyLiteral "",
              OutArg.u64 0xFFFFFFFFC0000005, OutArg.cstr (CPtr.raw 0xCCCCCCCCCCCCCCCC) "junk",
              OutArg.u64 0, OutArg.cstr CPtr.emptyLiteral ""],
           Event.localFree (CPtr.raw 0xCCCCCCCCCCCCCCCC)] := by
  decide

/-- C9, the code at a failing input: words 2 and 3 of the current record pass the
status-code test; the call of iteration 2 returns the buffer `0x1000`, the call of
iteration 3 fails in `LoadLibraryA` and leaves `str` as it was, here still `0x1000`. The
operating system returned one buffer, once; `wdcurr` passes it to `LocalFree` twice. -/
theorem wdcurr_releases_buffer_twice :
    (wdcurr osTextThenNoModule (fun i => if i = 3 then 0x1000 else 0) (fun _ => "")
        memWords23 8).trace
        = currHeader memWords23 8 ++
          [Event.formatNtStatus 2 0xC0000005,
           Event.formatNtStatus 3 0xC0000005,
           Event.out currDataFmt
             [OutArg.u64 0, OutArg.cstr CPtr.emptyLiteral "",
              OutArg.u64 0, OutArg.cstr CPtr.emptyLiteral "",
              OutArg.u64 0xFFFFFFFFC0000005,
              OutArg.cstr (CPtr.raw 0x1000) "Invalid access to memory location.",
              OutArg.u64 0xFFFFFFFFC0000005,
              OutArg.cstr (CPtr.raw 0x1000) "Invalid access to memory location.",
              OutArg.u64 0, OutArg.cstr CPtr.emptyLiteral ""],
           Event.localFree (CPtr.raw 0x1000),
           Event.localFree (CPtr.raw 0x1000)] := by
  decide

/-- C10, the code at a failing input: the live records of `memWords23` and of `memWord3`
agree on word 3, and the operating system, the starting value of `str` and the debugger
memory are the same in both dumps; the call of iteration 3 fails in `LoadLibraryA` and
leaves `str` as it was, `0x1000`. In the first dump iteration 2 has put a message into
the buffer at `0x1000`, and slot 3 shows that message (and the buffer is released twice);
in the second dump no call has succeeded and slot 3 shows the empty string. The string
shown in slot 3 is therefore not determined by word 3 and the operating system. -/
theorem wdlive_slot_string_depends_on_other_words :
    (liveData memWords23 0).getD 3 0 = (liveData memWord3 0).getD 3 0
    ∧ (liveData memWords23 0).getD 2 0 ≠ (liveData memWord3 0).getD 2 0
    ∧ (wdlive osTextThenNoModule (fun i => if i = 3 then 0x1000 else 0) (fun _ => "")
        memWords23 0).trace
        = liveHeader memWords23 0 ++
          [Event.formatNtStatus 2 0xC0000005,
           Event.formatNtStatus 3 0xC0000005,
           Event.out liveDataFmt
             [OutArg.u64 0, OutArg.cstr CPtr.emptyLiteral "",
              OutArg.u64 0, OutArg.cstr CPtr.emptyLiteral "",
              OutArg.u64 0xFFFFFFFFC0000005,
              OutArg.cstr (CPtr.raw 0x1000) "Invalid access to memory location.",
              OutArg.u64 0xFFFFFFFFC0000005,
              OutArg.cstr (CPtr.raw 0x1000) "Invalid access to memory location.",
              OutArg.u64 0, OutArg.cstr CPtr.emptyLiteral ""],
           Event.localFree (CPtr.raw 0x1000),
           Event.localFree (CPtr.raw 0x1000)]
    ∧ (wdlive osTextThenNoModule (fun i => if i = 3 then 0x1000 else 0) (fun _ => "")
        memWord3 0).trace
        = liveHeader memWord3 0 ++
          [Event.formatNtStatus 3 0xC0000005,
           Event.out liveDataFmt
             [OutArg.u64 0, OutArg.cstr CPtr.emptyLiteral "",
              OutArg.u64 0, OutArg.cstr CPtr.emptyLiteral "",
              OutArg.u64 0, OutArg.cstr CPtr.emptyLiteral "",
              OutArg.u64 0xFFFFFFFFC0000005, OutArg.cstr (CPtr.raw 0x1000) "",
              OutArg.u64 0, OutArg.cstr CPtr.emptyLiteral ""]] := by
  decide

/-! ## Facts about the live breakpoint -/

/-- The state is one of the two of the controller: no handle and no breakpoint, or a
handle and exactly one breakpoint, the one the handle designates. -/
theorem step_invariant (e : Extension) (s : Step)
    (h : (e.m_liveEventBp = 0 ∧ e.control.breakpoints = [])
      ∨ (e.m_liveEventBp ≠ 0 ∧ ∃ b, e.control.breakpoints = [b] ∧ b.handle = e.m_liveEventBp)) :
    ((step e s).m_liveEventBp = 0 ∧ (step e s).control.breakpoints = [])
      ∨ ((step e s).m_liveEventBp ≠ 0
          ∧ ∃ b, (step e s).control.breakpoints = [b] ∧ b.handle = (step e s).m_liveEventBp) := by
  rcases h with ⟨h0, hb⟩ | ⟨h1, b, hb, hh⟩
  · cases s with
    | install hr =>
      by_cases hhr : hr = S_OK
      · right
        simp [step, wdlivebpinstall, h0, hb, hhr, AddBreakpoint, SetOffsetExpression, SetCommand,
          AddFlags, onBreakpoint]
      · left
        simp [step, wdlivebpinstall, h0, hb, hhr, AddBreakpoint]
    | remove => left; simp [step, wdlivebpinstall, h0, hb]
    | teardown => left; simp [step, Uninitialize, h0, hb]
  · cases s with
    | install hr => right; simp [step, wdlivebpinstall, h1, hb, hh]
    | remove => left; simp [step, wdlivebpinstall, h1, hb, hh, RemoveBreakpoint]
    | teardown => left; simp [step, Uninitialize, h1, hb, hh, RemoveBreakpoint]

theorem foldl_step_invariant (steps : List Step) (e : Extension)
    (h : (e.m_liveEventBp = 0 ∧ e.control.breakpoints = [])
      ∨ (e.m_liveEventBp ≠ 0 ∧ ∃ b, e.control.breakpoints = [b] ∧ b.handle = e.m_liveEventBp)) :
    ((steps.foldl step e).m_liveEventBp = 0 ∧ (steps.foldl step e).control.breakpoints = [])
      ∨ ((steps.foldl step e).m_liveEventBp ≠ 0
          ∧ ∃ b, (steps.foldl step e).control.breakpoints = [b]
            ∧ b.handle = (steps.foldl step e).m_liveEventBp) := by
  induction steps generalizing e with
  | nil => exact h
  | cons s steps ih => exact ih (step e s) (step_invariant e s h)

theorem run_invariant (steps : List Step) :
    ((run steps).m_liveEventBp = 0 ∧ (run steps).control.breakpoints = [])
      ∨ ((run steps).m_liveEventBp ≠ 0
          ∧ ∃ b, (run steps).control.breakpoints = [b]
            ∧ b.handle = (run steps).m_liveEventBp) :=
  foldl_step_invariant steps Extension.init (Or.inl ⟨rfl, rfl⟩)

/-- C7: in every state reached from the constructed extension by any sequence of installs
(each with any answer of the engine to `AddBreakpoint`), removals and unloadings, at most
one breakpoint created by the controller exists, and one exists exactly when
`m_liveEventBp` is not null; after `Uninitialize` none exists and the handle is null. -/
theorem at_most_one_live_breakpoint (steps : List Step) :
    (run steps).control.breakpoints.length ≤ 1
    ∧ ((run steps).control.breakpoints.length = 1 ↔ (run steps).m_liveEventBp ≠ 0)
    ∧ ( Uninitialize (run steps)).control.breakpoints = []
    ∧ ( Uninitialize (run steps)).m_liveEventBp = 0
    ∧ (run (steps ++ [Step.teardown])).control.breakpoints = [] := by
  have hrun : run (steps ++ [Step.teardown]) = Uninitialize (run steps) := by
    simp [run, List.foldl_append, step]
  rw [hrun]
  rcases run_invariant steps with ⟨h0, hb⟩ | ⟨h1, b, hb, hh⟩
  · simp [ Uninitialize, h0, hb]
  · simp [ Uninitialize, h1, hb, hh, RemoveBreakpoint]

/-- C6: from any state the controller can reach, two installs in a row (the engine creating
the breakpoint if asked) leave exactly one breakpoint; the second install sends nothing to
the engine and reports "already installed". Two removals in a row leave no breakpoint; the
second removal sends nothing to the engine and reports that none exists. -/
theorem install_twice_remove_twice (steps : List Step) (hr : Int) :
    (wdlivebpinstall false hr (wdlivebpinstall false S_OK (run steps))).control.breakpoints.length
        = 1
    ∧ (wdlivebpinstall false hr (wdlivebpinstall false S_OK (run steps))).control
        = (wdlivebpinstall false S_OK (run steps)).control
    ∧ (wdlivebpinstall false hr (wdlivebpinstall false S_OK (run steps))).m_liveEventBp
        = (wdlivebpinstall false S_OK (run steps)).m_liveEventBp
    ∧ (wdlivebpinstall false hr (wdlivebpinstall false S_OK (run steps))).trace
        = (wdlivebpinstall false S_OK (run steps)).trace
          ++ [Event.out "Live Watchdog breakpoint already installed!\n" []]
    ∧ (wdlivebpinstall true hr (wdlivebpinstall true hr (run steps))).control.breakpoints = []
    ∧ (wdlivebpinstall true hr (wdlivebpinstall true hr (run steps))).control
        = (wdlivebpinstall true hr (run steps)).control
    ∧ (wdlivebpinstall true hr (wdlivebpinstall true hr (run steps))).m_liveEventBp = 0
    ∧ (wdlivebpinstall true hr (wdlivebpinstall true hr (run steps))).trace
        = (wdlivebpinstall true hr (run steps)).trace
          ++ [Event.out "No existing Live Watchdog breakpoint!\n" []] := by
  rcases run_invariant steps with ⟨h0, hb⟩ | ⟨h1, b, hb, hh⟩
  · simp [wdlivebpinstall, h0, hb, AddBreakpoint, SetOffsetExpression, SetCommand, AddFlags,
      onBreakpoint, S_OK]
  · simp [wdlivebpinstall, h1, hb, hh, RemoveBreakpoint]

/-- C8: when `wdlivebpinstall` runs with `m_liveEventBp` null and the engine answers
`AddBreakpoint` with a code other than `S_OK`, the command reports "Failed to create
breakpoint!", sends the engine nothing but that `AddBreakpoint`, leaves the breakpoints as
they were and `m_liveEventBp` null; the next `wdlivebpinstall` calls `AddBreakpoint` again
and does not report "already installed". -/
theorem failed_install_stays_uninstalled (e : Extension) (hr hr2 : Int)
    (h0 : e.m_liveEventBp = 0) (hhr : hr ≠ S_OK) :
    (wdlivebpinstall false hr e).trace = e.trace ++ [Event.out "Failed to create breakpoint!\n" []]
    ∧ (wdlivebpinstall false hr e).control.calls = e.control.calls ++ [EngineCall.AddBreakpoint]
    ∧ (wdlivebpinstall false hr e).control.breakpoints = e.control.breakpoints
    ∧ (wdlivebpinstall false hr e).m_liveEventBp = 0
    ∧ (∃ more, (wdlivebpinstall false hr2 (wdlivebpinstall false hr e)).control.calls
        = e.control.calls ++ [EngineCall.AddBreakpoint, EngineCall.AddBreakpoint] ++ more)
    ∧ (hr2 = S_OK → (wdlivebpinstall false hr2 (wdlivebpinstall false hr e)).m_liveEventBp ≠ 0)
    ∧ Event.out "Live Watchdog breakpoint already installed!\n" []
        ∉ (wdlivebpinstall false hr2 (wdlivebpinstall false hr e)).trace.drop e.trace.length := by
  by_cases h2 : hr2 = S_OK
  · simp [wdlivebpinstall, h0, hhr, h2, AddBreakpoint, SetOffsetExpression, SetCommand, AddFlags]
  · simp [wdlivebpinstall, h0, hhr, h2, AddBreakpoint]

/-- Witness of C8: the constructed extension, the engine answering `E_FAIL` and then
`S_OK`. -/
theorem failed_install_stays_uninstalled_witness :
    (wdlivebpinstall false (-2147467259) Extension.init).m_liveEventBp = 0
    ∧ (wdlivebpinstall false S_OK
        (wdlivebpinstall false (-2147467259) Extension.init)).m_liveEventBp ≠ 0 :=
  ⟨(failed_install_stays_uninstalled Extension.init (-2147467259) S_OK rfl (by decide)).2.2.2.1,
   (failed_install_stays_uninstalled Extension.init (-2147467259) S_OK rfl
      (by decide)).2.2.2.2.2.1 rfl⟩

end Watchdog
